import Mathlib

/-!
A Lean 4 model of the Python script `nscde-kitty-integ.py`, which converts an
NsCDE 8-color palette file into a kitty terminal color configuration, together
with theorems about its behaviour.

Modelling conventions:
* Python integers are `ℤ` (they are unbounded in Python).
* A color tuple is modelled as `List ℤ`; Python's `map(f, xs, ys)` over tuples
  truncates at the shorter argument, exactly like `List.zipWith`, which matters
  for `brighten` (see `mkPools`).
* Functions that can raise are modelled with `Except`/`Option`; the distinct
  `ValueError` messages of the script are the constructors of `PErr`.
* `closest_color` compares Euclidean distances computed as floats with `** (1/2)`.
  For the integer radicands that can occur (`0 ≤ d ≤ 3·255² = 195075`) the float
  square root is strictly monotone (consecutive radicands give square roots more
  than 10⁻³ apart, far above double rounding error), so comparing the squared
  integer distances is equivalent; the model uses the squared distances.
* `text_color` computes its luminance in IEEE double arithmetic; the model uses
  the exact-arithmetic equivalent integer comparison (see `text_color`).  The
  two can disagree only when the computed double lands on the other side of
  `0.5` than the exact value, which is irrelevant to the theorems proved here
  about assignment structure.
-/

set_option autoImplicit false

namespace NKI

/-- A Python tuple (or list) of integer color channels. -/
abbrev Color := List ℤ

/-- The distinct `ValueError`/`IOError` conditions the script can raise.
`fmtLen12` is the message `"thxs is not correctly formatted (#xxxxxxxxxxxx)."`
raised for 12-character inputs, `fmtGeneric` the message
`"thxs must be 12 digits long with '#' at the beginning."` for other bad
lengths, `hexParse` the `invalid literal for int() with base 16` error,
`sizeError` the `"ncolors must be either 8 or 4."` error, `emptyPool` the
`min() arg is an empty sequence` error, and `ioError` any exception caught by
the `try`/`except` blocks around the file read and the file write. -/
inductive PErr where
  | ioError
  | fmtLen12
  | fmtGeneric
  | hexParse
  | sizeError
  | emptyPool
  deriving DecidableEq

/-- Equality of `Except` results is decidable when both components are. -/
instance instDecEqExcept {ε α : Type} [DecidableEq ε] [DecidableEq α] :
    DecidableEq (Except ε α)
  | .ok x, .ok y => if h : x = y then isTrue (by rw [h]) else isFalse (by simp [h])
  | .error x, .error y => if h : x = y then isTrue (by rw [h]) else isFalse (by simp [h])
  | .ok _, .error _ => isFalse (by simp)
  | .error _, .ok _ => isFalse (by simp)

/-- Value of a hexadecimal digit character (`0`-`9`, `a`-`f`, `A`-`F`, by
ASCII code), as used by Python's `int(s, 16)`. -/
def hexVal? (c : Char) : Option ℤ :=
  let n := c.toNat
  if 48 ≤ n ∧ n ≤ 57 then some ((n : ℤ) - 48)
  else if 97 ≤ n ∧ n ≤ 102 then some ((n : ℤ) - 87)
  else if 65 ≤ n ∧ n ≤ 70 then some ((n : ℤ) - 55)
  else none

/-- ASCII whitespace accepted (and stripped) by Python's `int` and `str.strip`.
The script only ever deals with ASCII palette files, so the further Unicode
whitespace Python would also strip is out of scope here. -/
def isPySpace (c : Char) : Bool :=
  c = ' ' || c = '\t' || c = '\n' || c = '\x0b' || c = '\x0c' || c = '\r'

/-- Python's `int(s, 16)` restricted to the two-character strings the script
passes to it (the slices `thxs[1:3]`, `thxs[5:7]`, `thxs[9:11]`).  A
two-character string parses iff it is two hex digits, a sign followed by a hex
digit, or a hex digit with a single surrounding whitespace character; anything
else raises `ValueError` (`hexParse`). -/
def int16of2 (a b : Char) : Except PErr ℤ :=
  match hexVal? a, hexVal? b with
  | some x, some y => .ok (16 * x + y)
  | _, _ =>
    if a = '+' ∨ a = '-' then
      match hexVal? b with
      | some y => .ok (if a = '-' then -y else y)
      | none => .error .hexParse
    else if isPySpace a then
      match hexVal? b with
      | some y => .ok y
      | none => .error .hexParse
    else if isPySpace b then
      match hexVal? a with
      | some x => .ok x
      | none => .error .hexParse
    else .error .hexParse

/-- Model of `tw_to_rgb(thxs)`: a 13-character input has its character pairs at
indices 1-2, 5-6 and 9-10 (the slices `[1:3]`, `[5:7]`, `[9:11]`) parsed as
base-16 integers, evaluated left to right with the first failure raised; a
12-character input raises the distinct "not correctly formatted" `ValueError`;
any other length raises the generic message.  The leading character is never
inspected.  All indices are below the checked length 13, so the `getD`
defaults can never be produced. -/
def tw_to_rgb (s : String) : Except PErr Color :=
  let cs := s.data
  if cs.length = 13 then do
    let r ← int16of2 (cs.getD 1 ' ') (cs.getD 2 ' ')
    let g ← int16of2 (cs.getD 5 ' ') (cs.getD 6 ' ')
    let b ← int16of2 (cs.getD 9 ' ') (cs.getD 10 ' ')
    .ok [r, g, b]
  else if cs.length = 12 then .error .fmtLen12
  else .error .fmtGeneric

/-- Uppercase hexadecimal digit character.  The script formats with lowercase
`{:x}` and then applies `.upper()` to the whole string; since `#` and `-` are
fixed by `.upper()`, producing uppercase digits directly is the same. -/
def hexDigitCharU (d : ℕ) : Char :=
  if d < 10 then Char.ofNat (48 + d) else Char.ofNat (55 + d)

/-- Digits of `n` in base 16, most significant first, accumulated onto `acc`;
yields `acc` unchanged for `n = 0`.  Structural recursion on a fuel argument
(any fuel with `n < 16 ^ fuel` computes all digits) keeps the function
kernel-reducible. -/
def natToHexAux : ℕ → ℕ → List Char → List Char
  | 0, _, acc => acc
  | fuel + 1, n, acc =>
    if n = 0 then acc else natToHexAux fuel (n / 16) (hexDigitCharU (n % 16) :: acc)

/-- Python's `f"{n:x}"` for a natural number: no zero padding, and `"0"` for
zero (here already uppercased, see `hexDigitCharU`). -/
def natToHexU (n : ℕ) : List Char :=
  if n = 0 then ['0'] else natToHexAux (n + 1) n []

/-- Python's `f"{n:x}"` on an arbitrary integer: negative values format as a
minus sign followed by the digits of the absolute value. -/
def pyHex (n : ℤ) : List Char :=
  if n < 0 then '-' :: natToHexU (-n).toNat else natToHexU n.toNat

/-- Model of `rgb_to_hex(rgb)`: `f"#{rgb[0]:x}{rgb[1]:x}{rgb[2]:x}".upper()`.
The three indexing operations require at least three channels; fewer raise
`IndexError`, modelled as `none`. -/
def rgb_to_hex (rgb : Color) : Option String :=
  match rgb with
  | r :: g :: b :: _ => some ⟨'#' :: (pyHex r ++ pyHex g ++ pyHex b)⟩
  | _ => none

/-- Model of `brighten(rgb, values)`: add the deltas channel-wise (`map(add, …)`
truncates at the shorter tuple, hence `List.zipWith`); if any channel of the
sum exceeds 255 use the channel-wise difference instead; if any channel of the
current candidate is negative fall back to the original tuple.  The final
`map(round, …)` of the script is the identity on integers. -/
def brighten (rgb : Color) (values : Color) : Color :=
  let br0 := List.zipWith (fun a v => a + v) rgb values
  let br1 := if br0.any (fun i => decide (255 < i)) then
      List.zipWith (fun a v => a - v) rgb values
    else br0
  if br1.any (fun i => decide (i < 0)) then rgb else br1

/-- Model of `text_color(bg)`: luminance-thresholded black/white choice.  The
script tests `sum(map(mul, (0.299, 0.587, 0.114), bg)) / 255 > 0.5`; in exact
arithmetic that inequality is equivalent (scaling both sides by the positive
factor `255000`) to `299·R + 587·G + 114·B > 127500`, which is the form used
here so that the function stays kernel-computable.  `map(mul, …)` truncates at
the shorter sequence, hence `List.zipWith`.  The script evaluates the
inequality in IEEE doubles (see the file header). -/
def text_color (bg : Color) : Color :=
  let scaledLuminance := (List.zipWith (fun w c => w * c) [299, 587, 114] bg).sum
  if 127500 < scaledLuminance then [0, 0, 0] else [255, 255, 255]

/-- Squared Euclidean distance between two colors.  The script computes
`(abs(r-cr)**2 + abs(g-cg)**2 + abs(b-cb)**2) ** (1/2)` after unpacking both
colors into exactly three channels; on three-channel colors this value is the
square of that, and comparisons agree (see the file header). -/
def sqDist (rgb c : Color) : ℤ :=
  (List.zipWith (fun a v => (a - v) ^ 2) rgb c).sum

/-- Python's `<` on integer tuples (lexicographic, with a proper prefix smaller
than its extensions). -/
def listLt : List ℤ → List ℤ → Bool
  | _, [] => false
  | [], _ :: _ => true
  | a :: as, b :: bs => decide (a < b) || (decide (a = b) && listLt as bs)

/-- Python's `<` on the `(color_diff, color)` pairs built by `closest_color`:
first by distance, then lexicographically by the color tuple.  Distances are
compared via the squared integer distance (see `sqDist`). -/
def pairLt (p q : ℤ × Color) : Bool :=
  decide (p.1 < q.1) || (decide (p.1 = q.1) && listLt p.2 q.2)

/-- Python's `min` over a nonempty sequence, given its first element and the
rest: the current minimum is replaced only when a later element is strictly
smaller, so the earliest of several equal minima is kept. -/
def pymin (m : ℤ × Color) : List (ℤ × Color) → ℤ × Color
  | [] => m
  | x :: xs => pymin (if pairLt x m then x else m) xs

/-- Python's `list.remove(a)`: drop the first element equal to `a`. -/
def removeFirst (a : Color) : List Color → List Color
  | [] => []
  | x :: xs => if x = a then xs else x :: removeFirst a xs

/-- Model of `closest_color(rgb, colors)`: build the `(distance, color)` pair
list in pool order, take `min`, remove the chosen color from the pool, and
return it.  `min` of an empty sequence raises `ValueError`, modelled as
`none`; otherwise the selected color and the updated (destructively shrunk)
pool are returned. -/
def closest_color (rgb : Color) (colors : List Color) : Option (Color × List Color) :=
  match colors with
  | [] => none
  | c :: cs =>
    let result := (pymin (sqDist rgb c, c) (cs.map fun col => (sqDist rgb col, col))).2
    some (result, removeFirst result (c :: cs))

/-- Canonical hue `BLACK` from the script's module constants. -/
def BLACK : Color := [0, 0, 0]

/-- Canonical hue `RED`. -/
def RED : Color := [255, 0, 0]

/-- Canonical hue `GREEN`. -/
def GREEN : Color := [0, 255, 0]

/-- Canonical hue `YELLOW`. -/
def YELLOW : Color := [255, 255, 0]

/-- Canonical hue `BLUE`. -/
def BLUE : Color := [0, 0, 255]

/-- Canonical hue `MAGENTA`. -/
def MAGENTA : Color := [255, 0, 255]

/-- Canonical hue `CYAN`. -/
def CYAN : Color := [0, 255, 255]

/-- Canonical hue `WHITE`. -/
def WHITE : Color := [255, 255, 255]

/-- The 21 slots of `ColorConfModel.entries`, in the file's field order. -/
structure Conf where
  foreground : Color
  background : Color
  cursor : Color
  selection_foreground : Color
  selection_background : Color
  color0 : Color
  color1 : Color
  color2 : Color
  color3 : Color
  color4 : Color
  color5 : Color
  color6 : Color
  color7 : Color
  color8 : Color
  color9 : Color
  color10 : Color
  color11 : Color
  color12 : Color
  color13 : Color
  color14 : Color
  color15 : Color
  deriving DecidableEq

/-- The slot-assignment block of `__main__` (the body of the
`ncolors in [8, 4]` branch), with the pool-consuming draws in the exact source
order.  Returns the populated model together with what remains of the two
pools; `none` models the uncaught `ValueError` from `min()` when a pool is
exhausted mid-assignment. -/
def assignSlots (colors0 bright0 : List Color) :
    Option (Conf × List Color × List Color) :=
  match closest_color BLACK colors0 with
  | none => none
  | some (background, colors1) =>
  let foreground := text_color background
  match closest_color YELLOW colors1 with
  | none => none
  | some (cursor, colors2) =>
  match closest_color BLACK bright0 with
  | none => none
  | some (color8, bright1) =>
  match closest_color RED colors2 with
  | none => none
  | some (color1, colors3) =>
  match closest_color RED bright1 with
  | none => none
  | some (color9, bright2) =>
  match closest_color GREEN colors3 with
  | none => none
  | some (color2, colors4) =>
  match closest_color GREEN bright2 with
  | none => none
  | some (color10, bright3) =>
  match closest_color YELLOW bright3 with
  | none => none
  | some (color11, bright4) =>
  match closest_color BLUE colors4 with
  | none => none
  | some (color4, colors5) =>
  match closest_color BLUE bright4 with
  | none => none
  | some (color12, bright5) =>
  match closest_color MAGENTA colors5 with
  | none => none
  | some (color5, colors6) =>
  match closest_color MAGENTA bright5 with
  | none => none
  | some (color13, bright6) =>
  match closest_color CYAN colors6 with
  | none => none
  | some (color6, colors7) =>
  match closest_color CYAN bright6 with
  | none => none
  | some (color14, bright7) =>
  match closest_color WHITE colors7 with
  | none => none
  | some (color7, colors8) =>
  match closest_color WHITE bright7 with
  | none => none
  | some (color15, bright8) =>
  some (⟨foreground, background, cursor, background, foreground,
         background, color1, color2, cursor, color4, color5, color6, color7,
         color8, color9, color10, color11, color12, color13, color14, color15⟩,
        colors8, bright8)

/-- Modelled from the spec: the assignment-order list of section 4.3, steps 1
to 11 (background; foreground; cursor and the two selection aliases; color0
alias and color8; then the normal/bright pairs for red, green,
yellow-with-color3-alias, blue, magenta, cyan, white), written out step by
step for comparison with `assignSlots`. -/
def specOrderAssign (colors0 bright0 : List Color) :
    Option (Conf × List Color × List Color) :=
  match closest_color BLACK colors0 with
  | none => none
  | some (background, colors1) =>
  let foreground := text_color background
  match closest_color YELLOW colors1 with
  | none => none
  | some (cursor, colors2) =>
  let selection_foreground := background
  let selection_background := foreground
  let color0 := background
  match closest_color BLACK bright0 with
  | none => none
  | some (color8, bright1) =>
  match closest_color RED colors2 with
  | none => none
  | some (color1, colors3) =>
  match closest_color RED bright1 with
  | none => none
  | some (color9, bright2) =>
  match closest_color GREEN colors3 with
  | none => none
  | some (color2, colors4) =>
  match closest_color GREEN bright2 with
  | none => none
  | some (color10, bright3) =>
  let color3 := cursor
  match closest_color YELLOW bright3 with
  | none => none
  | some (color11, bright4) =>
  match closest_color BLUE colors4 with
  | none => none
  | some (color4, colors5) =>
  match closest_color BLUE bright4 with
  | none => none
  | some (color12, bright5) =>
  match closest_color MAGENTA colors5 with
  | none => none
  | some (color5, colors6) =>
  match closest_color MAGENTA bright5 with
  | none => none
  | some (color13, bright6) =>
  match closest_color CYAN colors6 with
  | none => none
  | some (color6, colors7) =>
  match closest_color CYAN bright6 with
  | none => none
  | some (color14, bright7) =>
  match closest_color WHITE colors7 with
  | none => none
  | some (color7, colors8) =>
  match closest_color WHITE bright7 with
  | none => none
  | some (color15, bright8) =>
  some (⟨foreground, background, cursor, selection_foreground, selection_background,
         color0, color1, color2, color3, color4, color5, color6, color7,
         color8, color9, color10, color11, color12, color13, color14, color15⟩,
        colors8, bright8)

/-- The pool construction of `__main__`: with `--vibrant` the normal pool is
the input brightened by the deltas and the bright pool is the normal pool
brightened by `brightness * 2` — which, `brightness` being a Python tuple, is
tuple concatenation (modelled as `brightness ++ brightness`), of which
`map(add, rgb, …)` then only uses the first three entries; without
`--vibrant` the normal pool is the raw input and the bright pool is the input
brightened by the deltas. -/
def mkPools (vibrant : Bool) (brightness : List ℤ) (colors : List Color) :
    List Color × List Color :=
  if vibrant then
    let colors2 := colors.map fun i => brighten i brightness
    (colors2, colors2.map fun i => brighten i (brightness ++ brightness))
  else
    (colors, colors.map fun i => brighten i brightness)

/-- Python's `str.strip()` (ASCII whitespace; see `isPySpace`). -/
def pyStrip (s : String) : String :=
  ⟨((s.data.dropWhile isPySpace).reverse.dropWhile isPySpace).reverse⟩

/-- The palette-conversion loop `[tw_to_rgb(i.strip()) for i in colors_12d]`:
each line is stripped and decoded, and the first failure propagates. -/
def parseAll (lines : List String) : Except PErr (List Color) :=
  lines.mapM fun i => tw_to_rgb (pyStrip i)

/-- How a run of the script ends: `success` is normal completion, `exitZero`
is the `sys.exit(0)` taken by `--silent` on a caught exception, and `crash e`
is an uncaught exception `e` (abnormal termination). -/
inductive Outcome where
  | success
  | exitZero
  | crash (e : PErr)
  deriving DecidableEq

/-- The `__main__` pipeline after argument parsing.  `readRes` is the outcome
of the `try` block around `open(args.path)`/`readlines` (`none` when it
raised), and `writeOk` says whether the `try` block around the theme write
succeeds.  Read failure: exit 0 under `--silent`, otherwise re-raise.  Then
every line is decoded (uncaught on failure), the two pools are built, the
`ncolors in [8, 4]` dispatch either runs the slot assignment (pool exhaustion
uncaught) or raises the size `ValueError` (uncaught), and finally the write
happens with the same `--silent` policy as the read. -/
def runMain (silent vibrant : Bool) (ncolors : ℤ) (brightness : List ℤ)
    (readRes : Option (List String)) (writeOk : Bool) : Outcome :=
  match readRes with
  | none => if silent then .exitZero else .crash .ioError
  | some lines =>
    match parseAll lines with
    | .error e => .crash e
    | .ok colors =>
      let pools := mkPools vibrant brightness colors
      if ncolors = 8 ∨ ncolors = 4 then
        match assignSlots pools.1 pools.2 with
        | none => .crash .emptyPool
        | some _ =>
          if writeOk then .success
          else if silent then .exitZero else .crash .ioError
      else .crash .sizeError

/-! Auxiliary lemmas. -/

/-- A hex digit value is between 0 and 15. -/
theorem hexVal?_bound {c : Char} {v : ℤ} (h : hexVal? c = some v) : 0 ≤ v ∧ v ≤ 15 := by
  simp only [hexVal?] at h
  split_ifs at h <;> simp only [Option.some.injEq] at h <;> omega

/-- On two hex digits, `int16of2` returns the two-digit value. -/
theorem int16of2_hex {a b : Char} {x y : ℤ} (ha : hexVal? a = some x)
    (hb : hexVal? b = some y) : int16of2 a b = .ok (16 * x + y) := by
  simp only [int16of2, ha, hb]

/-- A 12-character string gets the distinct "not correctly formatted" error. -/
theorem tw_to_rgb_of_length_eq_12 {s : String} (h : s.data.length = 12) :
    tw_to_rgb s = .error .fmtLen12 := by
  simp only [tw_to_rgb]
  rw [if_neg (by omega), if_pos h]

/-- A string whose length is neither 12 nor 13 gets the generic error. -/
theorem tw_to_rgb_of_length_ne {s : String} (h12 : s.data.length ≠ 12)
    (h13 : s.data.length ≠ 13) : tw_to_rgb s = .error .fmtGeneric := by
  simp only [tw_to_rgb]
  rw [if_neg h13, if_neg h12]

/-- A 13-character string is decoded from the character pairs at indices 1-2,
5-6 and 9-10; the characters at indices 0, 3, 4, 7, 8, 11, 12 are ignored. -/
theorem tw_to_rgb_of_13 (c0 c1 c2 c3 c4 c5 c6 c7 c8 c9 c10 c11 c12 : Char)
    {v1 v2 v5 v6 v9 v10 : ℤ}
    (h1 : hexVal? c1 = some v1) (h2 : hexVal? c2 = some v2)
    (h5 : hexVal? c5 = some v5) (h6 : hexVal? c6 = some v6)
    (h9 : hexVal? c9 = some v9) (h10 : hexVal? c10 = some v10) :
    tw_to_rgb ⟨[c0, c1, c2, c3, c4, c5, c6, c7, c8, c9, c10, c11, c12]⟩ =
      .ok [16 * v1 + v2, 16 * v5 + v6, 16 * v9 + v10] := by
  have g1 : ([c0, c1, c2, c3, c4, c5, c6, c7, c8, c9, c10, c11, c12] : List Char).getD 1 ' ' = c1 := rfl
  have g2 : ([c0, c1, c2, c3, c4, c5, c6, c7, c8, c9, c10, c11, c12] : List Char).getD 2 ' ' = c2 := rfl
  have g5 : ([c0, c1, c2, c3, c4, c5, c6, c7, c8, c9, c10, c11, c12] : List Char).getD 5 ' ' = c5 := rfl
  have g6 : ([c0, c1, c2, c3, c4, c5, c6, c7, c8, c9, c10, c11, c12] : List Char).getD 6 ' ' = c6 := rfl
  have g9 : ([c0, c1, c2, c3, c4, c5, c6, c7, c8, c9, c10, c11, c12] : List Char).getD 9 ' ' = c9 := rfl
  have g10 : ([c0, c1, c2, c3, c4, c5, c6, c7, c8, c9, c10, c11, c12] : List Char).getD 10 ' ' = c10 := rfl
  simp only [tw_to_rgb]
  rw [if_pos (show ([c0, c1, c2, c3, c4, c5, c6, c7, c8, c9, c10, c11, c12] : List Char).length = 13 from rfl)]
  simp only [g1, g2, g5, g6, g9, g10, int16of2_hex h1 h2, int16of2_hex h5 h6,
    int16of2_hex h9 h10]
  rfl

/-- Exhausted-digit base case of the hex formatter. -/
theorem natToHexAux_zero (fuel : ℕ) (acc : List Char) : natToHexAux fuel 0 acc = acc := by
  cases fuel <;> simp [natToHexAux]

/-- A byte value formats as one or two hex digits. -/
theorem natToHexU_length {n : ℕ} (h : n ≤ 255) :
    (natToHexU n).length = 1 ∨ (natToHexU n).length = 2 := by
  by_cases h0 : n = 0
  · left
    simp [natToHexU, h0]
  · rw [natToHexU, if_neg h0]
    obtain ⟨m, rfl⟩ : ∃ m, n = m + 1 := ⟨n - 1, by omega⟩
    rw [show natToHexAux (m + 1 + 1) (m + 1) [] =
        natToHexAux (m + 1) ((m + 1) / 16) [hexDigitCharU ((m + 1) % 16)] from by
      simp [natToHexAux, h0]]
    by_cases h16 : (m + 1) / 16 = 0
    · left
      rw [h16, natToHexAux_zero]
      rfl
    · right
      rw [show natToHexAux (m + 1) ((m + 1) / 16)
            [hexDigitCharU ((m + 1) % 16)] =
          natToHexAux m (((m + 1) / 16) / 16)
            (hexDigitCharU (((m + 1) / 16) % 16) :: [hexDigitCharU ((m + 1) % 16)]) from by
        rw [natToHexAux, if_neg h16]]
      rw [show ((m + 1) / 16) / 16 = 0 from by omega, natToHexAux_zero]
      rfl

/-- A channel value in `[0, 255]` formats as one or two characters. -/
theorem pyHex_length {n : ℤ} (h0 : 0 ≤ n) (h255 : n ≤ 255) :
    (pyHex n).length = 1 ∨ (pyHex n).length = 2 := by
  rw [pyHex, if_neg (by omega)]
  exact natToHexU_length (by omega)

/-- Encoding a triple of byte values yields a string of 4 to 7 characters
(`#` plus one or two digits per channel). -/
theorem rgb_to_hex_length {r g b : ℤ} (hr0 : 0 ≤ r) (hr : r ≤ 255) (hg0 : 0 ≤ g)
    (hg : g ≤ 255) (hb0 : 0 ≤ b) (hb : b ≤ 255) :
    ∃ hx : String, rgb_to_hex [r, g, b] = some hx ∧
      4 ≤ hx.data.length ∧ hx.data.length ≤ 7 := by
  refine ⟨⟨'#' :: (pyHex r ++ pyHex g ++ pyHex b)⟩, rfl, ?_, ?_⟩ <;>
  · simp only [List.length_cons, List.length_append]
    rcases pyHex_length hr0 hr with h1 | h1 <;> rcases pyHex_length hg0 hg with h2 | h2 <;>
      rcases pyHex_length hb0 hb with h3 | h3 <;> omega

/-- Python tuple comparison is irreflexive. -/
theorem listLt_irrefl : ∀ a : List ℤ, listLt a a = false
  | [] => rfl
  | a :: as => by simp [listLt, listLt_irrefl as]

/-- Python tuple comparison is transitive. -/
theorem listLt_trans : ∀ a b c : List ℤ, listLt a b = true → listLt b c = true →
    listLt a c = true
  | _, b, [] => by simp [listLt]
  | a, [], _ :: _ => by cases a <;> simp [listLt]
  | [], _ :: _, _ :: _ => by simp [listLt]
  | a :: as, b :: bs, c :: cs => by
    simp only [listLt, Bool.or_eq_true, Bool.and_eq_true, decide_eq_true_eq]
    rintro (hab | ⟨hab, hab2⟩) (hbc | ⟨hbc, hbc2⟩)
    · exact Or.inl (by omega)
    · exact Or.inl (by omega)
    · exact Or.inl (by omega)
    · exact Or.inr ⟨by omega, listLt_trans as bs cs hab2 hbc2⟩

/-- Python tuple comparison is connected: mutually incomparable tuples are equal. -/
theorem listLt_eq_of_not : ∀ a b : List ℤ, listLt a b = false → listLt b a = false → a = b
  | [], [] => fun _ _ => rfl
  | [], _ :: _ => by simp [listLt]
  | _ :: _, [] => by simp [listLt]
  | a :: as, b :: bs => by
    intro h1 h2
    have hab : ¬ a < b := by
      intro h
      simp [listLt, h] at h1
    have hba : ¬ b < a := by
      intro h
      simp [listLt, h] at h2
    have heq : a = b := by omega
    subst heq
    have h1' : listLt as bs = false := by simpa [listLt] using h1
    have h2' : listLt bs as = false := by simpa [listLt] using h2
    rw [listLt_eq_of_not as bs h1' h2']

/-- Pair comparison is irreflexive. -/
theorem pairLt_irrefl (p : ℤ × Color) : pairLt p p = false := by
  simp [pairLt, listLt_irrefl]

/-- Pair comparison is transitive. -/
theorem pairLt_trans {p q r : ℤ × Color} (h1 : pairLt p q = true)
    (h2 : pairLt q r = true) : pairLt p r = true := by
  simp only [pairLt, Bool.or_eq_true, Bool.and_eq_true, decide_eq_true_eq] at *
  rcases h1 with h1 | ⟨h1, h1'⟩ <;> rcases h2 with h2 | ⟨h2, h2'⟩
  · exact Or.inl (by omega)
  · exact Or.inl (by omega)
  · exact Or.inl (by omega)
  · exact Or.inr ⟨by omega, listLt_trans _ _ _ h1' h2'⟩

/-- If `p` does not beat `q` but beats `r`, then `q` beats `r`. -/
theorem pairLt_resolve {p q r : ℤ × Color} (hpq : pairLt p q = false)
    (hpr : pairLt p r = true) : pairLt q r = true := by
  simp only [pairLt, Bool.or_eq_true, Bool.and_eq_true, decide_eq_true_eq,
    Bool.or_eq_false_iff, Bool.and_eq_false_iff, decide_eq_false_iff_not] at *
  rcases hpr with h | ⟨h, h'⟩
  · exact Or.inl (by omega)
  · by_cases hq : q.1 < r.1
    · exact Or.inl hq
    · have hq1 : q.1 = p.1 := by omega
      refine Or.inr ⟨by omega, ?_⟩
      have hpq2 : listLt p.2 q.2 = false := by
        rcases hpq.2 with hc | hc
        · exact absurd hq1.symm hc
        · exact hc
      cases hqp2 : listLt q.2 p.2 with
      | true => exact listLt_trans _ _ _ hqp2 h'
      | false => rw [listLt_eq_of_not q.2 p.2 hqp2 hpq2]; exact h'

/-- The result of `pymin` is the initial element or a member of the rest. -/
theorem pymin_mem : ∀ (m : ℤ × Color) (l : List (ℤ × Color)),
    pymin m l = m ∨ pymin m l ∈ l
  | _, [] => Or.inl rfl
  | m, x :: xs => by
    simp only [pymin]
    rcases pymin_mem (if pairLt x m then x else m) xs with h | h
    · rw [h]
      split
      · exact Or.inr (List.mem_cons_self _ _)
      · exact Or.inl rfl
    · exact Or.inr (List.mem_cons_of_mem _ h)

/-- No considered element beats the result of `pymin`. -/
theorem pymin_not_lt (m : ℤ × Color) (l : List (ℤ × Color)) :
    ∀ y : ℤ × Color, y = m ∨ y ∈ l → pairLt y (pymin m l) = false := by
  induction l generalizing m with
  | nil =>
    intro y h
    rcases h with rfl | h
    · exact pairLt_irrefl y
    · cases h
  | cons x xs ih =>
    intro y h
    simp only [pymin]
    by_cases hxm : pairLt x m = true
    · rw [if_pos hxm]
      rcases h with rfl | h
      · have hx : pairLt x (pymin x xs) = false := ih x x (Or.inl rfl)
        cases hmR : pairLt y (pymin x xs) with
        | false => rfl
        | true => exact absurd (pairLt_trans hxm hmR) (by simp [hx])
      · rcases List.mem_cons.mp h with rfl | h'
        · exact ih y y (Or.inl rfl)
        · exact ih x y (Or.inr h')
    · rw [if_neg hxm]
      have hxm' : pairLt x m = false := by simpa using hxm
      rcases h with rfl | h
      · exact ih y y (Or.inl rfl)
      · rcases List.mem_cons.mp h with rfl | h'
        · have hm : pairLt m (pymin m xs) = false := ih m m (Or.inl rfl)
          cases hxR : pairLt y (pymin m xs) with
          | false => rfl
          | true => exact absurd (pairLt_resolve hxm' hxR) (by simp [hm])
        · exact ih m y (Or.inr h')

/-- Removing a member shortens the list by exactly one. -/
theorem removeFirst_length {a : Color} : ∀ {l : List Color}, a ∈ l →
    (removeFirst a l).length + 1 = l.length := by
  intro l h
  induction l with
  | nil => cases h
  | cons x xs ih =>
    by_cases hx : x = a
    · rw [removeFirst, if_pos hx]
      rfl
    · rw [removeFirst, if_neg hx]
      have hmem : a ∈ xs := by
        rcases List.mem_cons.mp h with rfl | hm
        · exact absurd rfl hx
        · exact hm
      simp only [List.length_cons, ← ih hmem]

/-- Full characterisation of `closest_color` on a nonempty pool: it returns a
pool member of minimal squared distance, smallest in Python tuple order among
the tied candidates, and the pool with the first occurrence of that member
removed. -/
theorem closest_color_spec (rgb : Color) (pool : List Color) (h : pool ≠ []) :
    ∃ c pool', closest_color rgb pool = some (c, pool') ∧ c ∈ pool ∧
      pool' = removeFirst c pool ∧
      (∀ d ∈ pool, sqDist rgb c ≤ sqDist rgb d) ∧
      (∀ d ∈ pool, sqDist rgb d = sqDist rgb c → listLt d c = false) := by
  obtain ⟨c0, cs, rfl⟩ : ∃ c0 cs, pool = c0 :: cs := by
    cases pool with
    | nil => exact absurd rfl h
    | cons c0 cs => exact ⟨c0, cs, rfl⟩
  have hmem : pymin (sqDist rgb c0, c0) (cs.map fun col => (sqDist rgb col, col)) =
        (sqDist rgb c0, c0) ∨
      pymin (sqDist rgb c0, c0) (cs.map fun col => (sqDist rgb col, col)) ∈
        cs.map fun col => (sqDist rgb col, col) := pymin_mem _ _
  have hR2 : (pymin (sqDist rgb c0, c0) (cs.map fun col => (sqDist rgb col, col))).1 =
        sqDist rgb (pymin (sqDist rgb c0, c0) (cs.map fun col => (sqDist rgb col, col))).2 ∧
      (pymin (sqDist rgb c0, c0) (cs.map fun col => (sqDist rgb col, col))).2 ∈ c0 :: cs := by
    rcases hmem with h' | h'
    · rw [h']
      exact ⟨rfl, List.mem_cons_self _ _⟩
    · obtain ⟨col, hcol, heq⟩ := List.mem_map.mp h'
      rw [← heq]
      exact ⟨rfl, List.mem_cons_of_mem _ hcol⟩
  have hnot : ∀ d ∈ c0 :: cs, pairLt (sqDist rgb d, d)
      (pymin (sqDist rgb c0, c0) (cs.map fun col => (sqDist rgb col, col))) = false := by
    intro d hd
    refine pymin_not_lt _ _ _ ?_
    rcases List.mem_cons.mp hd with rfl | hm
    · exact Or.inl rfl
    · exact Or.inr (List.mem_map.mpr ⟨d, hm, rfl⟩)
  refine ⟨_, _, rfl, hR2.2, rfl, ?_, ?_⟩
  · intro d hd
    have hp := hnot d hd
    simp only [pairLt, Bool.or_eq_false_iff, decide_eq_false_iff_not] at hp
    have := hp.1
    rw [hR2.1] at this
    omega
  · intro d hd hdist
    have hp := hnot d hd
    simp only [pairLt, Bool.or_eq_false_iff, Bool.and_eq_false_iff,
      decide_eq_false_iff_not] at hp
    rcases hp.2 with h' | h'
    · rw [hR2.1] at h'
      exact absurd hdist h'
    · exact h'

/-- A draw from a nonempty pool succeeds and shrinks it by one. -/
theorem closest_step (t : Color) {pool : List Color} (h : pool ≠ []) :
    ∃ c pool', closest_color t pool = some (c, pool') ∧
      pool'.length + 1 = pool.length := by
  obtain ⟨c, pool', heq, hmem, hrm, -, -⟩ := closest_color_spec t pool h
  exact ⟨c, pool', heq, by rw [hrm]; exact removeFirst_length hmem⟩

/-- A list of length at least one is not empty. -/
theorem ne_nil_of_len {l : List Color} (h : 1 ≤ l.length) : l ≠ [] := by
  intro hn
  rw [hn] at h
  simp at h

/-! Claim theorems. -/

/-- C1 (counterexample): with target `(0,0,0)` and pool `[(0,1,0), (0,0,1)]`
both entries are at the same Euclidean distance, yet `closest_color` returns
the second entry `(0,0,1)` (the lexicographically smaller tuple), not the
first minimum encountered in pool order, refuting the claimed tie-break. -/
theorem c1_closest_color_counterexample :
    sqDist [0, 0, 0] [0, 1, 0] = sqDist [0, 0, 0] [0, 0, 1] ∧
    closest_color [0, 0, 0] [[0, 1, 0], [0, 0, 1]] = some ([0, 0, 1], [[0, 1, 0]]) ∧
    ([0, 0, 1] : Color) ≠ [0, 1, 0] := by decide

/-- C1 (amended): for every target RGB triple and non-empty pool of RGB
triples, `closest_color` returns a pool entry of minimum Euclidean distance
(equivalently, minimum squared distance) to the target, breaking distance ties
in favour of the lexicographically smallest tied color tuple (Python's `min`
compares the `(distance, color)` pairs), removes the first occurrence of that
entry from the pool — shrinking it by exactly one — and returns it. -/
theorem c1_closest_color_min (rgb : Color) (pool : List Color) (hne : pool ≠ [])
    (_hrgb : rgb.length = 3) (_hpool : ∀ c ∈ pool, c.length = 3) :
    ∃ c pool', closest_color rgb pool = some (c, pool') ∧ c ∈ pool ∧
      (∀ d ∈ pool, sqDist rgb c ≤ sqDist rgb d) ∧
      (∀ d ∈ pool, sqDist rgb d = sqDist rgb c → listLt d c = false) ∧
      pool' = removeFirst c pool ∧ pool'.length + 1 = pool.length := by
  obtain ⟨c, pool', heq, hmem, hrm, hmin, htie⟩ := closest_color_spec rgb pool hne
  exact ⟨c, pool', heq, hmem, hmin, htie, hrm, by rw [hrm]; exact removeFirst_length hmem⟩

/-- C1 (witness): the amended theorem at the spec's own example, target
`(0,0,0)` and pool `[(10,10,10), (200,200,200)]`. -/
theorem c1_closest_color_min_witness :
    ∃ c pool', closest_color [0, 0, 0] [[10, 10, 10], [200, 200, 200]] = some (c, pool') ∧
      c ∈ [[10, 10, 10], [200, 200, 200]] ∧
      (∀ d ∈ [[10, 10, 10], [200, 200, 200]], sqDist [0, 0, 0] c ≤ sqDist [0, 0, 0] d) ∧
      (∀ d ∈ [[10, 10, 10], [200, 200, 200]],
        sqDist [0, 0, 0] d = sqDist [0, 0, 0] c → listLt d c = false) ∧
      pool' = removeFirst c [[10, 10, 10], [200, 200, 200]] ∧
      pool'.length + 1 = ([[10, 10, 10], [200, 200, 200]] : List Color).length :=
  c1_closest_color_min [0, 0, 0] [[10, 10, 10], [200, 200, 200]] (by decide) (by decide)
    (by decide)

/-- C2 (code bug): in vibrant mode with deltas `(20,20,20)` and raw color
`(0,0,0)`, the normal pool entry is `(20,20,20)` but the bright pool entry is
`(40,40,40)` — the deltas applied once, because `brightness * 2` is tuple
concatenation whose extra entries `map(add, …)` discards — whereas brightening
the normal-pool entry by the doubled deltas `(40,40,40)` would give
`(60,60,60)`. -/
theorem c2_vibrant_bright_pool_not_doubled :
    mkPools true [20, 20, 20] [[0, 0, 0]] = ([[20, 20, 20]], [[40, 40, 40]]) ∧
    brighten [20, 20, 20] [40, 40, 40] = [60, 60, 60] ∧
    ([[40, 40, 40]] : List Color) ≠ [[60, 60, 60]] := by decide

/-- C3 (counterexample): decoding the valid wide-hex string `#101010101010`
yields `(16,16,16)`, which encodes as the 7-character string `#101010`;
re-decoding that encoded string raises the generic FormatError instead of
returning the original triple, so decode after encode is not the identity on
the image of decode. -/
theorem c3_roundtrip_counterexample :
    tw_to_rgb "#101010101010" = .ok [16, 16, 16] ∧
    rgb_to_hex [16, 16, 16] = some "#101010" ∧
    tw_to_rgb "#101010" = .error .fmtGeneric ∧
    (Except.error PErr.fmtGeneric : Except PErr Color) ≠ .ok [16, 16, 16] := by decide

/-- C3 (amended): for every valid 13-character wide-hex string (`#` followed
by 12 hex digits), decoding succeeds, encoding the decoded triple succeeds and
produces a string of only 4 to 7 characters, and decoding that encoded string
therefore always fails with the generic FormatError: the decode-encode-decode
round trip never returns a triple, let alone the original one. -/
theorem c3_roundtrip_fails (c1 c2 c3 c4 c5 c6 c7 c8 c9 c10 c11 c12 : Char)
    (h1 : (hexVal? c1).isSome = true) (h2 : (hexVal? c2).isSome = true)
    (_h3 : (hexVal? c3).isSome = true) (_h4 : (hexVal? c4).isSome = true)
    (h5 : (hexVal? c5).isSome = true) (h6 : (hexVal? c6).isSome = true)
    (_h7 : (hexVal? c7).isSome = true) (_h8 : (hexVal? c8).isSome = true)
    (h9 : (hexVal? c9).isSome = true) (h10 : (hexVal? c10).isSome = true)
    (_h11 : (hexVal? c11).isSome = true) (_h12 : (hexVal? c12).isSome = true) :
    ∃ rgbv hx, tw_to_rgb ⟨['#', c1, c2, c3, c4, c5, c6, c7, c8, c9, c10, c11, c12]⟩ =
        .ok rgbv ∧
      rgb_to_hex rgbv = some hx ∧ 4 ≤ hx.data.length ∧ hx.data.length ≤ 7 ∧
      tw_to_rgb hx = .error .fmtGeneric := by
  obtain ⟨v1, hv1⟩ := Option.isSome_iff_exists.mp h1
  obtain ⟨v2, hv2⟩ := Option.isSome_iff_exists.mp h2
  obtain ⟨v5, hv5⟩ := Option.isSome_iff_exists.mp h5
  obtain ⟨v6, hv6⟩ := Option.isSome_iff_exists.mp h6
  obtain ⟨v9, hv9⟩ := Option.isSome_iff_exists.mp h9
  obtain ⟨v10, hv10⟩ := Option.isSome_iff_exists.mp h10
  have hd := tw_to_rgb_of_13 '#' c1 c2 c3 c4 c5 c6 c7 c8 c9 c10 c11 c12 hv1 hv2 hv5 hv6
    hv9 hv10
  have b1 := hexVal?_bound hv1
  have b2 := hexVal?_bound hv2
  have b5 := hexVal?_bound hv5
  have b6 := hexVal?_bound hv6
  have b9 := hexVal?_bound hv9
  have b10 := hexVal?_bound hv10
  obtain ⟨hx, hhx, hlo, hhi⟩ := rgb_to_hex_length (r := 16 * v1 + v2) (g := 16 * v5 + v6)
    (b := 16 * v9 + v10) (by omega) (by omega) (by omega) (by omega) (by omega) (by omega)
  exact ⟨[16 * v1 + v2, 16 * v5 + v6, 16 * v9 + v10], hx, hd, hhx, hlo, hhi,
    tw_to_rgb_of_length_ne (by omega) (by omega)⟩

/-- C3 (witness): the amended theorem at the all-zeros wide-hex string. -/
theorem c3_roundtrip_fails_witness :
    ∃ rgbv hx, tw_to_rgb ⟨['#', '0', '0', '0', '0', '0', '0', '0', '0', '0', '0', '0', '0']⟩ =
        .ok rgbv ∧
      rgb_to_hex rgbv = some hx ∧ 4 ≤ hx.data.length ∧ hx.data.length ≤ 7 ∧
      tw_to_rgb hx = .error .fmtGeneric :=
  c3_roundtrip_fails '0' '0' '0' '0' '0' '0' '0' '0' '0' '0' '0' '0' (by decide) (by decide)
    (by decide) (by decide) (by decide) (by decide) (by decide) (by decide) (by decide)
    (by decide) (by decide) (by decide)

/-- C4: brighten never clamps: it returns the channel-wise sum when no summed
channel exceeds 255, otherwise the channel-wise difference when none of its
channels is negative, otherwise the original color unchanged; in particular
`brighten((250,250,250),(20,20,20)) = (230,230,230)`,
`brighten((0,0,0),(20,20,20)) = (20,20,20)`, and
`brighten((250,5,5),(20,20,20)) = (250,5,5)`. -/
theorem c4_brighten_three_way :
    (∀ r g b dr dg db : ℤ, 0 ≤ r → 0 ≤ g → 0 ≤ b → 0 ≤ dr → 0 ≤ dg → 0 ≤ db →
      brighten [r, g, b] [dr, dg, db] =
        if r + dr ≤ 255 ∧ g + dg ≤ 255 ∧ b + db ≤ 255 then [r + dr, g + dg, b + db]
        else if 0 ≤ r - dr ∧ 0 ≤ g - dg ∧ 0 ≤ b - db then [r - dr, g - dg, b - db]
        else [r, g, b]) ∧
    brighten [250, 250, 250] [20, 20, 20] = [230, 230, 230] ∧
    brighten [0, 0, 0] [20, 20, 20] = [20, 20, 20] ∧
    brighten [250, 5, 5] [20, 20, 20] = [250, 5, 5] := by
  refine ⟨?_, by decide, by decide, by decide⟩
  intro r g b dr dg db hr hg hb hdr hdg hdb
  simp only [brighten, List.zipWith]
  by_cases hA : 255 < r + dr ∨ 255 < g + dg ∨ 255 < b + db
  · rw [if_pos (show List.any [r + dr, g + dg, b + db] (fun i => decide (255 < i)) = true by
      simp only [List.any_cons, List.any_nil, Bool.or_false, Bool.or_eq_true,
        decide_eq_true_eq]
      exact hA)]
    rw [if_neg (show ¬(r + dr ≤ 255 ∧ g + dg ≤ 255 ∧ b + db ≤ 255) by omega)]
    by_cases hB : 0 ≤ r - dr ∧ 0 ≤ g - dg ∧ 0 ≤ b - db
    · rw [if_pos hB,
        if_neg (show ¬List.any [r - dr, g - dg, b - db] (fun i => decide (i < 0)) = true by
          simp only [List.any_cons, List.any_nil, Bool.or_false, Bool.or_eq_true,
            decide_eq_true_eq]
          omega)]
    · rw [if_neg hB,
        if_pos (show List.any [r - dr, g - dg, b - db] (fun i => decide (i < 0)) = true by
          simp only [List.any_cons, List.any_nil, Bool.or_false, Bool.or_eq_true,
            decide_eq_true_eq]
          omega)]
  · rw [if_neg (show ¬List.any [r + dr, g + dg, b + db] (fun i => decide (255 < i)) = true by
      simp only [List.any_cons, List.any_nil, Bool.or_false, Bool.or_eq_true,
        decide_eq_true_eq]
      omega)]
    rw [if_neg (show ¬List.any [r + dr, g + dg, b + db] (fun i => decide (i < 0)) = true by
      simp only [List.any_cons, List.any_nil, Bool.or_false, Bool.or_eq_true,
        decide_eq_true_eq]
      omega)]
    rw [if_pos (show r + dr ≤ 255 ∧ g + dg ≤ 255 ∧ b + db ≤ 255 by omega)]

/-- C4 (witness): the general three-way case rule applied at `(250,5,5)` with
deltas `(20,20,20)`. -/
theorem c4_brighten_three_way_witness :
    brighten [250, 5, 5] [20, 20, 20] =
      if (250 : ℤ) + 20 ≤ 255 ∧ (5 : ℤ) + 20 ≤ 255 ∧ (5 : ℤ) + 20 ≤ 255 then
        [250 + 20, 5 + 20, 5 + 20]
      else if (0 : ℤ) ≤ 250 - 20 ∧ (0 : ℤ) ≤ 5 - 20 ∧ (0 : ℤ) ≤ 5 - 20 then
        [250 - 20, 5 - 20, 5 - 20]
      else [250, 5, 5] :=
  c4_brighten_three_way.1 250 5 5 20 20 20 (by decide) (by decide) (by decide) (by decide)
    (by decide) (by decide)

/-- C5 (counterexample): the claim's example string `#xxxxxxxxxxxx` has 13
characters (`#` plus twelve `x`s), so it passes the length check and fails
only when `int("xx", 16)` raises its own ValueError — not the distinct
12-character FormatError the claim names. -/
theorem c5_decode_counterexample :
    ("#xxxxxxxxxxxx" : String).data.length = 13 ∧
    tw_to_rgb "#xxxxxxxxxxxx" = .error .hexParse ∧
    PErr.hexParse ≠ PErr.fmtLen12 := by decide

/-- C5 (amended): a 12-character input fails with the distinct missing-`#`
message, any other length different from 13 fails with the generic message
(the two messages being distinct), and a 13-character input is parsed by
taking the character pairs at positions 2-3, 6-7 and 10-11 (1-indexed) as
base-16 integers; in particular the 12-character string `#xxxxxxxxxxx` raises
the distinct error, while the claim's 13-character `#xxxxxxxxxxxx` instead
fails in hex parsing. -/
theorem c5_decode_errors :
    (∀ s : String, s.data.length = 12 → tw_to_rgb s = .error .fmtLen12) ∧
    (∀ s : String, s.data.length ≠ 12 → s.data.length ≠ 13 →
      tw_to_rgb s = .error .fmtGeneric) ∧
    (∀ c0 c1 c2 c3 c4 c5 c6 c7 c8 c9 c10 c11 c12 : Char, ∀ v1 v2 v5 v6 v9 v10 : ℤ,
      hexVal? c1 = some v1 → hexVal? c2 = some v2 → hexVal? c5 = some v5 →
      hexVal? c6 = some v6 → hexVal? c9 = some v9 → hexVal? c10 = some v10 →
      tw_to_rgb ⟨[c0, c1, c2, c3, c4, c5, c6, c7, c8, c9, c10, c11, c12]⟩ =
        .ok [16 * v1 + v2, 16 * v5 + v6, 16 * v9 + v10]) ∧
    PErr.fmtLen12 ≠ PErr.fmtGeneric ∧
    tw_to_rgb "#xxxxxxxxxxx" = .error .fmtLen12 ∧
    tw_to_rgb "#xxxxxxxxxxxx" = .error .hexParse := by
  refine ⟨?_, ?_, ?_, by decide, by decide, by decide⟩
  · exact fun s h => tw_to_rgb_of_length_eq_12 h
  · exact fun s h12 h13 => tw_to_rgb_of_length_ne h12 h13
  · intro c0 c1 c2 c3 c4 c5 c6 c7 c8 c9 c10 c11 c12 v1 v2 v5 v6 v9 v10 h1 h2 h5 h6 h9 h10
    exact tw_to_rgb_of_13 c0 c1 c2 c3 c4 c5 c6 c7 c8 c9 c10 c11 c12 h1 h2 h5 h6 h9 h10

/-- C5 (witness): the error rules applied at a concrete 12-character string, a
concrete 2-character string, and the all-zeros 13-character string. -/
theorem c5_decode_errors_witness :
    tw_to_rgb "abcdefghijkl" = .error .fmtLen12 ∧
    tw_to_rgb "ab" = .error .fmtGeneric ∧
    tw_to_rgb ⟨['#', '0', '0', '0', '0', '0', '0', '0', '0', '0', '0', '0', '0']⟩ =
      .ok [16 * 0 + 0, 16 * 0 + 0, 16 * 0 + 0] :=
  ⟨c5_decode_errors.1 "abcdefghijkl" (by decide),
   c5_decode_errors.2.1 "ab" (by decide) (by decide),
   c5_decode_errors.2.2.1 '#' '0' '0' '0' '0' '0' '0' '0' '0' '0' '0' '0' '0' 0 0 0 0 0 0
     (by decide) (by decide) (by decide) (by decide) (by decide) (by decide)⟩

/-- C10: for channel and delta values in `[0, 255]`, every channel of the
result of `brighten` stays in `[0, 255]`: the three-way fallback always yields
a valid RGB triple even though it never clamps. -/
theorem c10_brighten_in_range (r g b dr dg db : ℤ)
    (hr0 : 0 ≤ r) (hr : r ≤ 255) (hg0 : 0 ≤ g) (hg : g ≤ 255)
    (hb0 : 0 ≤ b) (hb : b ≤ 255) (hdr0 : 0 ≤ dr) (hdr : dr ≤ 255)
    (hdg0 : 0 ≤ dg) (hdg : dg ≤ 255) (hdb0 : 0 ≤ db) (hdb : db ≤ 255) :
    ∀ x ∈ brighten [r, g, b] [dr, dg, db], 0 ≤ x ∧ x ≤ 255 := by
  simp only [brighten, List.zipWith]
  by_cases hA : List.any [r + dr, g + dg, b + db] (fun i => decide (255 < i)) = true
  · rw [if_pos hA]
    simp only [List.any_cons, List.any_nil, Bool.or_false, Bool.or_eq_true,
      decide_eq_true_eq] at hA
    by_cases hB : List.any [r - dr, g - dg, b - db] (fun i => decide (i < 0)) = true
    · rw [if_pos hB]
      intro x hx
      rcases List.mem_cons.mp hx with rfl | hx'
      · omega
      rcases List.mem_cons.mp hx' with rfl | hx''
      · omega
      rcases List.mem_cons.mp hx'' with rfl | hx'''
      · omega
      · cases hx'''
    · rw [if_neg hB]
      simp only [List.any_cons, List.any_nil, Bool.or_false, Bool.or_eq_true,
        decide_eq_true_eq] at hB
      intro x hx
      rcases List.mem_cons.mp hx with rfl | hx'
      · omega
      rcases List.mem_cons.mp hx' with rfl | hx''
      · omega
      rcases List.mem_cons.mp hx'' with rfl | hx'''
      · omega
      · cases hx'''
  · rw [if_neg hA]
    simp only [List.any_cons, List.any_nil, Bool.or_false, Bool.or_eq_true,
      decide_eq_true_eq] at hA
    rw [if_neg (show ¬List.any [r + dr, g + dg, b + db] (fun i => decide (i < 0)) = true by
      simp only [List.any_cons, List.any_nil, Bool.or_false, Bool.or_eq_true,
        decide_eq_true_eq]
      omega)]
    intro x hx
    rcases List.mem_cons.mp hx with rfl | hx'
    · omega
    rcases List.mem_cons.mp hx' with rfl | hx''
    · omega
    rcases List.mem_cons.mp hx'' with rfl | hx'''
    · omega
    · cases hx'''

/-- C10 (witness): the range invariant applied at `(0,0,0)` with the default
deltas, evaluated at the resulting member `20`. -/
theorem c10_brighten_in_range_witness : (0 : ℤ) ≤ 20 ∧ (20 : ℤ) ≤ 255 :=
  c10_brighten_in_range 0 0 0 20 20 20 (by decide) (by decide) (by decide) (by decide)
    (by decide) (by decide) (by decide) (by decide) (by decide) (by decide) (by decide)
    (by decide) 20 (by decide)

/-- C6: a read failure exits 0 under `--silent` and crashes with the I/O error
otherwise; a write failure (with everything before it succeeding) likewise;
malformed-palette format errors and the invalid-size error are never caught,
with or without `--silent`. -/
theorem c6_silent_io_policy :
    (∀ (silent vibrant : Bool) (n : ℤ) (brightness : List ℤ) (writeOk : Bool),
      runMain silent vibrant n brightness none writeOk =
        if silent then .exitZero else .crash .ioError) ∧
    (∀ (silent vibrant : Bool) (brightness : List ℤ) (lines : List String)
        (colors : List Color) (n : ℤ) (conf : Conf) (rest : List Color × List Color),
      parseAll lines = .ok colors → (n = 8 ∨ n = 4) →
      assignSlots (mkPools vibrant brightness colors).1
          (mkPools vibrant brightness colors).2 = some (conf, rest) →
      runMain silent vibrant n brightness (some lines) false =
        if silent then .exitZero else .crash .ioError) ∧
    (∀ (silent vibrant : Bool) (n : ℤ) (brightness : List ℤ) (lines : List String)
        (writeOk : Bool) (e : PErr),
      parseAll lines = .error e →
      runMain silent vibrant n brightness (some lines) writeOk = .crash e) ∧
    (∀ (silent vibrant : Bool) (brightness : List ℤ) (lines : List String)
        (colors : List Color) (writeOk : Bool) (n : ℤ),
      parseAll lines = .ok colors → n ≠ 8 → n ≠ 4 →
      runMain silent vibrant n brightness (some lines) writeOk = .crash .sizeError) := by
  refine ⟨fun _ _ _ _ _ => rfl, ?_, ?_, ?_⟩
  · intro silent vibrant brightness lines colors n conf rest hp hn ha
    simp only [runMain, hp]
    rw [if_pos hn]
    simp only [ha]
    rfl
  · intro silent vibrant n brightness lines writeOk e hp
    simp only [runMain, hp]
  · intro silent vibrant brightness lines colors writeOk n hp h8 h4
    simp only [runMain, hp]
    rw [if_neg (fun hor => hor.elim h8 h4)]

/-- C6 (witness): the four policy rules at concrete inputs: a silent read
failure exits 0; a write failure after a successful 8-color run follows the
silent flag; a malformed line crashes with its format error even under
`--silent`; size 5 crashes even under `--silent`. -/
theorem c6_silent_io_policy_witness :
    runMain true false 8 [20, 20, 20] none true = (if true then .exitZero else .crash .ioError) ∧
    runMain false false 8 [20, 20, 20]
        (some ["#000000000000", "#000000000000", "#000000000000", "#000000000000",
               "#000000000000", "#000000000000", "#000000000000", "#000000000000"]) false =
      (if false then .exitZero else .crash .ioError) ∧
    runMain true false 8 [20, 20, 20] (some ["zz"]) true = .crash .fmtGeneric ∧
    runMain true false 5 [20, 20, 20] (some ["#000000000000"]) true = .crash .sizeError :=
  ⟨c6_silent_io_policy.1 true false 8 [20, 20, 20] true,
   c6_silent_io_policy.2.1 false false [20, 20, 20]
     ["#000000000000", "#000000000000", "#000000000000", "#000000000000",
      "#000000000000", "#000000000000", "#000000000000", "#000000000000"]
     [[0, 0, 0], [0, 0, 0], [0, 0, 0], [0, 0, 0], [0, 0, 0], [0, 0, 0], [0, 0, 0], [0, 0, 0]]
     8
     ⟨[255, 255, 255], [0, 0, 0], [0, 0, 0], [0, 0, 0], [255, 255, 255],
      [0, 0, 0], [0, 0, 0], [0, 0, 0], [0, 0, 0], [0, 0, 0], [0, 0, 0], [0, 0, 0], [0, 0, 0],
      [20, 20, 20], [20, 20, 20], [20, 20, 20], [20, 20, 20], [20, 20, 20], [20, 20, 20],
      [20, 20, 20], [20, 20, 20]⟩
     ([], []) (by decide) (Or.inl rfl) (by decide),
   c6_silent_io_policy.2.2.1 true false 8 [20, 20, 20] ["zz"] true .fmtGeneric (by decide),
   c6_silent_io_policy.2.2.2 true false [20, 20, 20] ["#000000000000"] [[0, 0, 0]] true 5
     (by decide) (by decide) (by decide)⟩

/-- C7: any requested palette size other than 8 or 4 crashes with the size
`ValueError` (never caught, with or without `--silent`) once the palette has
been read and decoded, while sizes 8 and 4 take the identical code path: the
whole run is the same function of every other input. -/
theorem c7_size_dispatch :
    (∀ (silent vibrant : Bool) (brightness : List ℤ) (lines : List String)
        (colors : List Color) (writeOk : Bool) (n : ℤ),
      parseAll lines = .ok colors → n ≠ 8 → n ≠ 4 →
      runMain silent vibrant n brightness (some lines) writeOk = .crash .sizeError) ∧
    (∀ (silent vibrant : Bool) (brightness : List ℤ) (readRes : Option (List String))
        (writeOk : Bool),
      runMain silent vibrant 8 brightness readRes writeOk =
        runMain silent vibrant 4 brightness readRes writeOk) := by
  constructor
  · intro silent vibrant brightness lines colors writeOk n hp h8 h4
    simp only [runMain, hp]
    rw [if_neg (fun hor => hor.elim h8 h4)]
  · intro silent vibrant brightness readRes writeOk
    cases readRes with
    | none => rfl
    | some lines =>
      simp only [runMain]
      cases hp : parseAll lines with
      | error e => rfl
      | ok colors => simp

/-- C7 (witness): size 5 crashes with the size error with and without
`--silent`, and sizes 8 and 4 agree at a concrete input. -/
theorem c7_size_dispatch_witness :
    runMain false false 5 [20, 20, 20] (some ["#000000000000"]) true = .crash .sizeError ∧
    runMain true false 5 [20, 20, 20] (some ["#000000000000"]) true = .crash .sizeError ∧
    runMain true true 8 [20, 20, 20] none false = runMain true true 4 [20, 20, 20] none false :=
  ⟨c7_size_dispatch.1 false false [20, 20, 20] ["#000000000000"] [[0, 0, 0]] true 5
     (by decide) (by decide) (by decide),
   c7_size_dispatch.1 true false [20, 20, 20] ["#000000000000"] [[0, 0, 0]] true 5
     (by decide) (by decide) (by decide),
   c7_size_dispatch.2 true true [20, 20, 20] none false⟩

/-- C8: the slot assignment is exactly the spec's fixed order (the
step-by-step `specOrderAssign`), and on pools of at least 8 colors each it
succeeds with foreground = text_color(background),
selection_foreground = background, selection_background = foreground, and the
aliases color0 = background and color3 = cursor consuming nothing: exactly 8
entries are consumed from the normal pool and 8 from the bright pool. -/
theorem c8_assignment_order :
    (∀ colors bright, assignSlots colors bright = specOrderAssign colors bright) ∧
    ∀ (colors bright : List Color), 8 ≤ colors.length → 8 ≤ bright.length →
      ∃ conf colors' bright', assignSlots colors bright = some (conf, colors', bright') ∧
        conf.foreground = text_color conf.background ∧
        conf.selection_foreground = conf.background ∧
        conf.selection_background = conf.foreground ∧
        conf.color0 = conf.background ∧
        conf.color3 = conf.cursor ∧
        colors'.length + 8 = colors.length ∧
        bright'.length + 8 = bright.length := by
  refine ⟨fun _ _ => rfl, ?_⟩
  intro colors bright hc hb
  obtain ⟨bg, n1, e1, l1⟩ := closest_step BLACK (ne_nil_of_len (show 1 ≤ colors.length by omega))
  obtain ⟨cur, n2, e2, l2⟩ := closest_step YELLOW (ne_nil_of_len (show 1 ≤ n1.length by omega))
  obtain ⟨k8, b1, f1, m1⟩ := closest_step BLACK (ne_nil_of_len (show 1 ≤ bright.length by omega))
  obtain ⟨k1, n3, e3, l3⟩ := closest_step RED (ne_nil_of_len (show 1 ≤ n2.length by omega))
  obtain ⟨k9, b2, f2, m2⟩ := closest_step RED (ne_nil_of_len (show 1 ≤ b1.length by omega))
  obtain ⟨k2, n4, e4, l4⟩ := closest_step GREEN (ne_nil_of_len (show 1 ≤ n3.length by omega))
  obtain ⟨k10, b3, f3, m3⟩ := closest_step GREEN (ne_nil_of_len (show 1 ≤ b2.length by omega))
  obtain ⟨k11, b4, f4, m4⟩ := closest_step YELLOW (ne_nil_of_len (show 1 ≤ b3.length by omega))
  obtain ⟨k4, n5, e5, l5⟩ := closest_step BLUE (ne_nil_of_len (show 1 ≤ n4.length by omega))
  obtain ⟨k12, b5, f5, m5⟩ := closest_step BLUE (ne_nil_of_len (show 1 ≤ b4.length by omega))
  obtain ⟨k5, n6, e6, l6⟩ := closest_step MAGENTA (ne_nil_of_len (show 1 ≤ n5.length by omega))
  obtain ⟨k13, b6, f6, m6⟩ := closest_step MAGENTA (ne_nil_of_len (show 1 ≤ b5.length by omega))
  obtain ⟨k6, n7, e7, l7⟩ := closest_step CYAN (ne_nil_of_len (show 1 ≤ n6.length by omega))
  obtain ⟨k14, b7, f7, m7⟩ := closest_step CYAN (ne_nil_of_len (show 1 ≤ b6.length by omega))
  obtain ⟨k7, n8, e8, l8⟩ := closest_step WHITE (ne_nil_of_len (show 1 ≤ n7.length by omega))
  obtain ⟨k15, b8, f8, m8⟩ := closest_step WHITE (ne_nil_of_len (show 1 ≤ b7.length by omega))
  have hassign : assignSlots colors bright = some
      (⟨text_color bg, bg, cur, bg, text_color bg, bg, k1, k2, cur, k4, k5, k6, k7,
        k8, k9, k10, k11, k12, k13, k14, k15⟩, n8, b8) := by
    simp only [assignSlots, e1, e2, f1, e3, f2, e4, f3, f4, e5, f5, e6, f6, e7, f7, e8, f8]
  exact ⟨_, n8, b8, hassign, rfl, rfl, rfl, rfl, rfl, by omega, by omega⟩

/-- C8 (witness): the assignment theorem at two concrete pools of the 8
canonical hues each. -/
theorem c8_assignment_order_witness :
    ∃ conf colors' bright',
      assignSlots
          [[0, 0, 0], [255, 0, 0], [0, 255, 0], [255, 255, 0], [0, 0, 255],
           [255, 0, 255], [0, 255, 255], [255, 255, 255]]
          [[20, 20, 20], [235, 20, 20], [20, 235, 20], [235, 235, 20], [20, 20, 235],
           [235, 20, 235], [20, 235, 235], [235, 235, 235]] =
        some (conf, colors', bright') ∧
      conf.foreground = text_color conf.background ∧
      conf.selection_foreground = conf.background ∧
      conf.selection_background = conf.foreground ∧
      conf.color0 = conf.background ∧
      conf.color3 = conf.cursor ∧
      colors'.length + 8 =
        ([[0, 0, 0], [255, 0, 0], [0, 255, 0], [255, 255, 0], [0, 0, 255],
          [255, 0, 255], [0, 255, 255], [255, 255, 255]] : List Color).length ∧
      bright'.length + 8 =
        ([[20, 20, 20], [235, 20, 20], [20, 235, 20], [235, 235, 20], [20, 20, 235],
          [235, 20, 235], [20, 235, 235], [235, 235, 235]] : List Color).length :=
  c8_assignment_order.2
    [[0, 0, 0], [255, 0, 0], [0, 255, 0], [255, 255, 0], [0, 0, 255],
     [255, 0, 255], [0, 255, 255], [255, 255, 255]]
    [[20, 20, 20], [235, 20, 20], [20, 235, 20], [235, 235, 20], [20, 20, 235],
     [235, 20, 235], [20, 235, 235], [235, 235, 235]]
    (by decide) (by decide)

end NKI
